import Mathlib

/-!
Shallow embedding of the coldfusion-ls event loop and typed dispatch core
(crates/coldfusion-ls/src/main.rs).  The dispatcher, global-state, config and
handler modules are declared in main.rs (`mod dispatcher;` etc.) but their
files are not part of the provided sources; those parts are modelled from the
specification, and each such definition says so in its doc comment.  Machine
time (`Instant`) is not modelled: no verified property depends on it.
-/

/-- Untyped JSON payload, as carried by protocol messages. -/
inductive Json where
  | null : Json
  | bool (b : Bool) : Json
  | num (n : Int) : Json
  | str (s : String) : Json
  | arr (xs : List Json) : Json
  | obj (kvs : List (String × Json)) : Json

/-- Request identifier: an integer or a string (lsp_server::RequestId). -/
inductive RequestId where
  | num (n : Int) : RequestId
  | str (s : String) : RequestId
deriving DecidableEq

/-- An inbound request (lsp_server::Request). -/
structure Request where
  id : RequestId
  method : String
  params : Json

/-- An inbound or outbound notification (lsp_server::Notification). -/
structure Notif where
  method : String
  params : Json

/-- Error payload of a response (lsp_server::ResponseError). -/
structure ResponseError where
  code : Int
  message : String

/-- A response (lsp_server::Response): result xor error, plus the id. -/
structure Response where
  id : RequestId
  result : Option Json
  error : Option ResponseError

/-- Protocol message (lsp_server::Message): tagged union of the three kinds. -/
inductive Message where
  | request (r : Request) : Message
  | notif (n : Notif) : Message
  | response (r : Response) : Message

/-- Response.new_err: an error response with the given id, code and message. -/
def Response.newErr (id : RequestId) (code : Int) (message : String) : Response :=
  { id := id, result := none, error := some { code := code, message := message } }

/-- Successful response carrying a result payload. -/
def Response.newOk (id : RequestId) (result : Json) : Response :=
  { id := id, result := some result, error := none }

/-- ErrorCode::InvalidRequest as i32 (lsp_server). -/
def invalidRequestCode : Int := -32600

/-- ErrorCode::InvalidParams as i32 (lsp_server). -/
def invalidParamsCode : Int := -32602

/-- ErrorCode::InternalError as i32 (lsp_server). -/
def internalErrorCode : Int := -32603

/-- Modelled from the spec: a request handler's domain-level failure, which
the dispatcher must map to an error response whose code distinguishes a bad
request from an internal error (spec section 4.2 step 3).  The handlers
module is not among the provided sources. -/
inductive HFail where
  | badRequest (m : String) : HFail
  | internal (m : String) : HFail

/-- Modelled from the spec: the response error code reflecting a handler
failure kind (bad request vs internal error). -/
def HFail.code : HFail → Int
  | .badRequest _ => invalidRequestCode
  | .internal _ => internalErrorCode

/-- Modelled from the spec: the human-readable message of a handler failure. -/
def HFail.msg : HFail → String
  | .badRequest m => m
  | .internal m => m

/-- Filesystem path (std::path::PathBuf), abstracted to its textual form. -/
abbrev FsPath := String

/-- Absolute filesystem path (virtual_fs::AbsPathBuf).  Absoluteness is an
external contract of the conversion functions, which are abstract here. -/
structure AbsPath where
  path : FsPath
deriving DecidableEq

/-- Configuration record.  Modelled from the spec: the config module is not
among the provided sources; spec section 3 lists exactly these fields. -/
structure Config where
  root_path : AbsPath
  capabilities : Json
  workspace_roots : List AbsPath
  dynamic_options : Json

/-- Modelled from the spec: Config::new stores the initialization inputs;
dynamic options start empty and are only filled by the update entry point. -/
def Config.new (root_path : AbsPath) (capabilities : Json)
    (workspace_roots : List AbsPath) : Config :=
  { root_path := root_path, capabilities := capabilities,
    workspace_roots := workspace_roots, dynamic_options := Json.null }

/-- Server state owned by the event loop.  Modelled from the spec: the
global_state module is not among the provided sources; spec section 3 gives
the aggregate as configuration, outstanding-request registry and the
shutdown_requested lifecycle flag.  `sent` records the outbound channel. -/
structure GlobalState where
  config : Config
  shutdown_requested : Bool
  outstanding : List (RequestId × String)
  sent : List Message

/-- Modelled from the spec: registering an incoming request inserts its
bookkeeping entry, keeping at most one entry per id (spec section 3,
OutstandingRequestEntry invariant). -/
def GlobalState.register_request (gs : GlobalState) (req : Request) : GlobalState :=
  { gs with outstanding :=
      (req.id, req.method) ::
        gs.outstanding.filter (fun e => decide (e.1 ≠ req.id)) }

/-- Modelled from the spec: responding removes the request's registry entry
(the request completes synchronously, spec section 3) and emits the response
on the outbound channel. -/
def GlobalState.respond (gs : GlobalState) (resp : Response) : GlobalState :=
  { gs with
      outstanding := gs.outstanding.filter (fun e => decide (e.1 ≠ resp.id)),
      sent := gs.sent ++ [Message.response resp] }

/-- Modelled from the spec: this core issues no client-bound requests, so an
inbound Response correlates with nothing and is discarded as a no-op
(spec section 4.1). -/
def GlobalState.complete_request (gs : GlobalState) (_resp : Response) : GlobalState :=
  gs

/-- RequestDispatcher: the request being dispatched (None once claimed) and
the server state (main.rs builds it with req and global_state fields). -/
structure RequestDispatcher where
  req : Option Request
  global_state : GlobalState

/-- Modelled from the spec: RequestDispatcher::on_sync_mut (dispatcher module
not among the provided sources).  If the pending request's method equals the
binding's method, the binding claims it; decode failure yields an
InvalidParams response; otherwise the handler runs and its outcome is
serialized into exactly one response with the original id
(spec section 4.2 steps 1-3). -/
def on_sync_mut_req {α β : Type} (method : String) (decode : Json → Option α)
    (encode : β → Json) (handler : GlobalState → α → GlobalState × Except HFail β)
    (d : RequestDispatcher) : RequestDispatcher :=
  match d.req with
  | none => d
  | some r =>
    if r.method = method then
      match decode r.params with
      | none =>
        { req := none,
          global_state := d.global_state.respond
            (Response.newErr r.id invalidParamsCode
              "failed to deserialize request parameters") }
      | some a =>
        match handler d.global_state a with
        | (gs1, .ok b) =>
          { req := none, global_state := gs1.respond (Response.newOk r.id (encode b)) }
        | (gs1, .error e) =>
          { req := none,
            global_state := gs1.respond (Response.newErr r.id e.code e.msg) }
    else d

/-- Modelled from the spec: RequestDispatcher::finish.  An unclaimed message
is silently finished, logged, not an error (spec section 4.2). -/
def request_finish (d : RequestDispatcher) : GlobalState :=
  d.global_state

/-- NotificationDispatcher: the notification being dispatched (None once
claimed) and the server state. -/
structure NotifDispatcher where
  pending : Option Notif
  global_state : GlobalState

/-- Modelled from the spec: NotificationDispatcher::on_sync_mut.  A claimed
notification is decoded; decode failure and handler failure are surfaced to
the caller, and no response is ever emitted (spec sections 4.2 step 4). -/
def on_sync_mut_notif {α : Type} (method : String) (decode : Json → Option α)
    (handler : GlobalState → α → GlobalState × Except String Unit)
    (d : NotifDispatcher) : Except String NotifDispatcher :=
  match d.pending with
  | none => .ok d
  | some n =>
    if n.method = method then
      match decode n.params with
      | none => .error "failed to deserialize notification parameters"
      | some a =>
        match handler d.global_state a with
        | (gs1, .ok _) => .ok { pending := none, global_state := gs1 }
        | (_, .error e) => .error e
    else .ok d

/-- Decoder for the Shutdown request's parameters: the empty parameter list
deserializes only from the null payload. -/
def decodeUnit : Json → Option Unit
  | .null => some ()
  | _ => none

/-- Decoder for $/cancelRequest parameters.  Modelled from the spec: Cancel
carries the id of the request to cancel. -/
def decodeCancel : Json → Option RequestId
  | .obj kvs =>
    match kvs.lookup "id" with
    | some (.num n) => some (.num n)
    | some (.str s) => some (.str s)
    | _ => none
  | _ => none

/-- Modelled from the spec: handlers::notifications::handle_cancel removes
the registry entry for the cancelled id if present and is a no-op otherwise
(spec section 8). -/
def handle_cancel (gs : GlobalState) (id : RequestId) :
    GlobalState × Except String Unit :=
  ({ gs with outstanding := gs.outstanding.filter (fun e => decide (e.1 ≠ id)) },
    .ok ())

/-- The Shutdown request handler from main.rs: it sets shutdown_requested and
returns success (the closure at the first on_sync_mut call of on_request). -/
def shutdown_handler (s : GlobalState) (_u : Unit) :
    GlobalState × Except HFail Unit :=
  ({ s with shutdown_requested := true }, .ok ())

/-- Modelled from the spec: the semantic handlers (completion, text-document
synchronization) are external collaborators whose module is not among the
provided sources; they are abstract functions with the handler interface of
spec section 6, together with the decoders for their declared input types. -/
structure Handlers where
  completionDecode : Json → Option Json
  completion : GlobalState → Json → GlobalState × Except HFail Json
  didOpenDecode : Json → Option Json
  didOpen : GlobalState → Json → GlobalState × Except String Unit
  didCloseDecode : Json → Option Json
  didClose : GlobalState → Json → GlobalState × Except String Unit
  didChangeDecode : Json → Option Json
  didChange : GlobalState → Json → GlobalState × Except String Unit

/-- The inline match block of GlobalState::on_request in main.rs: when a
request is still pending and shutdown has been requested, answer it with an
InvalidRequest error; the request stays pending (the code has no early
return after responding). -/
def shutdown_guard (d : RequestDispatcher) : RequestDispatcher :=
  match d.req with
  | some r =>
    if d.global_state.shutdown_requested then
      { d with global_state :=
          d.global_state.respond (Response.newErr r.id invalidRequestCode
            "Shutdown already requested") }
    else d
  | none => d

/-- GlobalState::on_request from main.rs: bind the Shutdown handler, then the
shutdown-requested guard, then the Completion binding, then finish. -/
def on_request (H : Handlers) (gs : GlobalState) (req : Request) : GlobalState :=
  request_finish
    (on_sync_mut_req "textDocument/completion" H.completionDecode
      (fun j => j) H.completion
      (shutdown_guard
        (on_sync_mut_req "shutdown" decodeUnit (fun _ => Json.null)
          shutdown_handler
          { req := some req, global_state := gs })))

/-- GlobalState::on_new_request from main.rs: register the request, then
dispatch it (the received Instant only feeds latency bookkeeping). -/
def on_new_request (H : Handlers) (gs : GlobalState) (req : Request) : GlobalState :=
  on_request H (gs.register_request req) req

/-- GlobalState::on_notification from main.rs: bind Cancel, DidOpen,
DidClose, DidChange in order, then finish; each step propagates failure. -/
def on_notification (H : Handlers) (gs : GlobalState) (n : Notif) :
    Except String GlobalState := do
  let d0 : NotifDispatcher := { pending := some n, global_state := gs }
  let d1 ← on_sync_mut_notif "$/cancelRequest" decodeCancel handle_cancel d0
  let d2 ← on_sync_mut_notif "textDocument/didOpen" H.didOpenDecode H.didOpen d1
  let d3 ← on_sync_mut_notif "textDocument/didClose" H.didCloseDecode H.didClose d2
  let d4 ← on_sync_mut_notif "textDocument/didChange" H.didChangeDecode H.didChange d3
  return d4.global_state

/-- GlobalState::handle_event from main.rs: classify the message and route it
to the request, notification or response path. -/
def handle_event (H : Handlers) (gs : GlobalState) (m : Message) :
    Except String GlobalState :=
  match m with
  | .request r => .ok (on_new_request H gs r)
  | .notif n => on_notification H gs n
  | .response r => .ok (gs.complete_request r)

/-- Abnormal outcomes of GlobalState::run: the loop's own bail when the
channel closes without exit, or an error propagated from handle_event. -/
inductive RunErr where
  | connectionTerminated : RunErr
  | handlerFailed (e : String) : RunErr

/-- Test for the exit notification checked by run before any dispatch. -/
def is_exit : Message → Bool
  | .notif n => n.method = "exit"
  | _ => false

/-- GlobalState::run from main.rs over the queued channel contents: dequeue,
return Ok before dispatch on an exit notification, otherwise handle the event
and propagate its failure; a drained channel bails with
"Connection was terminated". -/
def run (H : Handlers) (gs : GlobalState) : List Message → Except RunErr GlobalState
  | [] => .error .connectionTerminated
  | m :: rest =>
    if is_exit m then .ok gs
    else
      match handle_event H gs m with
      | .ok gs1 => run H gs1 rest
      | .error e => .error (.handlerFailed e)

/-- A workspace folder supplied at initialization (lsp_types), reduced to its
uri; uri-to-path conversion is an abstract fallible function. -/
structure WorkspaceFolder where
  uri : String

/-- The per-folder conversion pipeline of main.rs: uri to file path, patch,
then conversion to an absolute path, dropping failures at each step. -/
def converted_roots (toFilePath : String → Option FsPath) (patch : FsPath → FsPath)
    (tryAbs : FsPath → Option AbsPath) (ws : List WorkspaceFolder) : List AbsPath :=
  ((ws.filterMap (fun it => toFilePath it.uri)).map patch).filterMap tryAbs

/-- The workspace_roots computation of main.rs: convert each folder's uri to
a file path, patch the path, convert to an absolute path, drop failures;
if no folders were supplied or the converted list is empty, fall back to the
one-element list holding root_path. -/
def workspace_roots_of (toFilePath : String → Option FsPath) (patch : FsPath → FsPath)
    (tryAbs : FsPath → Option AbsPath) (root_path : AbsPath)
    (folders : Option (List WorkspaceFolder)) : List AbsPath :=
  match folders.map (converted_roots toFilePath patch tryAbs) with
  | some l => if l.isEmpty then [root_path] else l
  | none => [root_path]

/-- The root_path computation of main.rs: root_uri converted to a file path,
patched, converted to an absolute path; on any failure fall back to the
current working directory (absolute by the OS contract, None when
current_dir itself fails, which propagates as the only error). -/
def root_path_of (toFilePath : String → Option FsPath) (patch : FsPath → FsPath)
    (tryAbs : FsPath → Option AbsPath) (currentDir : Option AbsPath)
    (rootUri : Option String) : Except String AbsPath :=
  match ((rootUri.bind toFilePath).map patch).bind tryAbs with
  | some it => .ok it
  | none =>
    match currentDir with
    | some cwd => .ok cwd
    | none => .error "current_dir failed"

/-- Configuration construction of main.rs: compute root_path, then
workspace_roots, then Config::new. -/
def build_config (toFilePath : String → Option FsPath) (patch : FsPath → FsPath)
    (tryAbs : FsPath → Option AbsPath) (currentDir : Option AbsPath)
    (rootUri : Option String) (capabilities : Json)
    (folders : Option (List WorkspaceFolder)) : Except String Config := do
  let rp ← root_path_of toFilePath patch tryAbs currentDir rootUri
  return Config.new rp capabilities
    (workspace_roots_of toFilePath patch tryAbs rp folders)

/-- Serialized ShowMessageParams with MessageType::WARNING (= 2) as sent by
main.rs when a configuration update fails. -/
def show_message_warning (e : String) : Json :=
  Json.obj [("type", Json.num 2),
    ("message", Json.str ("Failed to update configuration: " ++ e))]

/-- The initialization-options step of main.rs: if options were supplied,
attempt Config::update (abstract: the config module is not among the provided
sources; spec section 4.4 gives its contract as all-or-nothing); on failure
keep the previous configuration and send one window/showMessage WARNING
notification, then continue. -/
def apply_init_options (upd : Config → Json → Except String Config)
    (config : Config) (opts : Option Json) : Config × List Message :=
  match opts with
  | none => (config, [])
  | some json =>
    match upd config json with
    | .ok c => (c, [])
    | .error e =>
      (config,
        [Message.notif { method := "window/showMessage",
                         params := show_message_warning e }])

/-- The responses among a list of outbound messages. -/
def responsesOf (ms : List Message) : List Response :=
  ms.filterMap (fun m => match m with | .response r => some r | _ => none)

/-- True when the response is an error response with the given id and code. -/
def isErrFor (id : RequestId) (code : Int) (r : Response) : Bool :=
  decide (r.id = id) &&
    match r.error with
    | some e => decide (e.code = code)
    | none => false

/-- A request handler that neither emits responses itself nor resets the
shutdown latch: the interface contract of spec sections 3 and 6 (emission is
the dispatcher's job; the latch is permanent). -/
def GoodReqHandler (f : GlobalState → Json → GlobalState × Except HFail Json) : Prop :=
  ∀ gs a, responsesOf ((f gs a).1).sent = responsesOf gs.sent ∧
    (gs.shutdown_requested = true → ((f gs a).1).shutdown_requested = true)

/-- A notification handler that neither emits responses itself nor resets the
shutdown latch: the interface contract of spec sections 3 and 6. -/
def GoodNotifHandler (f : GlobalState → Json → GlobalState × Except String Unit) : Prop :=
  ∀ gs a, responsesOf ((f gs a).1).sent = responsesOf gs.sent ∧
    (gs.shutdown_requested = true → ((f gs a).1).shutdown_requested = true)

/-- All abstract handlers satisfy their interface contract. -/
def GoodHandlers (H : Handlers) : Prop :=
  GoodReqHandler H.completion ∧ GoodNotifHandler H.didOpen ∧
    GoodNotifHandler H.didClose ∧ GoodNotifHandler H.didChange

/-- A concrete handler set used to evaluate the embedding on closed inputs:
the completion handler echoes its input, the text-document handlers do
nothing. -/
def testHandlers : Handlers :=
  { completionDecode := fun j => some j,
    completion := fun gs j => (gs, .ok j),
    didOpenDecode := fun j => some j,
    didOpen := fun gs _ => (gs, .ok ()),
    didCloseDecode := fun j => some j,
    didClose := fun gs _ => (gs, .ok ()),
    didChangeDecode := fun j => some j,
    didChange := fun gs _ => (gs, .ok ()) }

/-- A concrete base state with the shutdown flag clear and empty channels. -/
def baseGS : GlobalState :=
  { config := Config.new (AbsPath.mk "/w") Json.null [AbsPath.mk "/w"],
    shutdown_requested := false, outstanding := [], sent := [] }

/-- The base state after a Shutdown request has been processed. -/
def shutGS : GlobalState :=
  { baseGS with shutdown_requested := true }

/-- A concrete completion request used to evaluate the embedding. -/
def cexCompletionReq : Request :=
  { id := RequestId.num 7, method := "textDocument/completion",
    params := Json.str "p" }

/-- A concrete request with an undecodable shutdown payload. -/
def cexBadShutdownReq : Request :=
  { id := RequestId.num 9, method := "shutdown", params := Json.num 3 }

/-- A concrete uri-to-path conversion that always succeeds, for witnesses. -/
def okToFilePath : String → Option FsPath := fun s => some s

/-- A concrete absolute-path conversion that always fails, for witnesses. -/
def failTryAbs : FsPath → Option AbsPath := fun _ => none

/-- A concrete absolute-path conversion that always succeeds, for witnesses. -/
def okTryAbs : FsPath → Option AbsPath := fun p => some (AbsPath.mk p)

/-- A concrete configuration update that always fails, for witnesses. -/
def failUpd : Config → Json → Except String Config := fun _ _ => .error "bad"

/-- A concrete handler set whose didOpen handler reports a failure, used to
evaluate the notification error path on closed inputs. -/
def failHandlers : Handlers :=
  { testHandlers with didOpen := fun gs _ => (gs, .error "boom") }

/-- The outbound warning notification sent by main.rs on a failed
configuration update. -/
def warnNotif (e : String) : Message :=
  Message.notif { method := "window/showMessage", params := show_message_warning e }

/-- Responses distribute over concatenation of the outbound channel. -/
theorem responsesOf_append (a b : List Message) :
    responsesOf (a ++ b) = responsesOf a ++ responsesOf b := by
  simp [responsesOf]

/-- Responding appends exactly that response to the outbound responses. -/
theorem responsesOf_respond (gs : GlobalState) (r : Response) :
    responsesOf (gs.respond r).sent = responsesOf gs.sent ++ [r] := by
  simp [GlobalState.respond, responsesOf_append, responsesOf]

/-- C3: when the event loop dequeues a Notification whose method is "exit",
it returns successfully at once with the state untouched (so the exit
notification reaches no handler), and the result does not depend on the
messages still queued behind it (so they are never processed). -/
theorem run_exit_terminates_immediately (H : Handlers) (gs : GlobalState)
    (p : Json) (rest : List Message) :
    run H gs (Message.notif { method := "exit", params := p } :: rest) =
      .ok gs := by
  simp [run, is_exit]

/-- C4: draining the channel without having dequeued an exit notification
(and without a handler failure, which is a propagated error, not the loop's
own) makes run fail with the distinguished connection-terminated condition;
conversely that condition only arises when no dequeued message was exit. -/
theorem run_connection_terminated (H : Handlers) :
    (∀ gs ms, (∀ m ∈ ms, is_exit m = false) →
      (∀ gs1 m, m ∈ ms → ∃ gs2, handle_event H gs1 m = .ok gs2) →
      run H gs ms = .error .connectionTerminated) ∧
    (∀ gs ms, run H gs ms = .error .connectionTerminated →
      ∀ m ∈ ms, is_exit m = false) := by
  constructor
  · intro gs ms
    induction ms generalizing gs with
    | nil => intro _ _; rfl
    | cons m rest ih =>
      intro hx hok
      have hm : is_exit m = false := hx m (List.mem_cons_self m rest)
      obtain ⟨gs2, hk⟩ := hok gs m (List.mem_cons_self m rest)
      simp only [run, hm, Bool.false_eq_true, if_false, hk]
      exact ih gs2 (fun m1 h1 => hx m1 (List.mem_cons_of_mem m h1))
        (fun gs1 m1 h1 => hok gs1 m1 (List.mem_cons_of_mem m h1))
  · intro gs ms
    induction ms generalizing gs with
    | nil => intro _ m hm; cases hm
    | cons m rest ih =>
      intro hrun m1 hm1
      by_cases hex : is_exit m = true
      · simp only [run, hex, if_true] at hrun
        cases hrun
      · have hexf : is_exit m = false := by
          cases h : is_exit m
          · rfl
          · exact absurd h hex
        simp only [run, hexf, Bool.false_eq_true, if_false] at hrun
        cases h : handle_event H gs m with
        | ok gs1 =>
          rw [h] at hrun
          rcases List.mem_cons.mp hm1 with rfl | hm2
          · exact hexf
          · exact ih gs1 hrun m1 hm2
        | error e =>
          rw [h] at hrun
          cases hrun

/-- Closed witness for the connection-terminated theorem: a channel holding
one inbound response message and then closing, with no exit notification. -/
theorem run_connection_terminated_witness :
    run testHandlers baseGS
      [Message.response (Response.newOk (RequestId.num 1) Json.null)] =
      .error .connectionTerminated := by
  refine (run_connection_terminated testHandlers).1 baseGS _ ?_ ?_
  · intro m hm
    rcases List.mem_singleton.mp hm with rfl
    rfl
  · intro gs1 m hm
    rcases List.mem_singleton.mp hm with rfl
    exact ⟨gs1, rfl⟩

/-- C6: a failed configuration update at initialization emits exactly one
window/showMessage notification of type WARNING, returns (the server keeps
running: main proceeds to the loop), and leaves the configuration, every
field included, exactly as it was before the attempted update. -/
theorem config_update_failure_warns_and_keeps_config
    (upd : Config → Json → Except String Config) (config : Config)
    (json : Json) (e : String) (hfail : upd config json = .error e) :
    apply_init_options upd config (some json) = (config, [warnNotif e]) := by
  simp [apply_init_options, hfail, warnNotif]

/-- Closed witness for the configuration-update theorem: a concrete always
failing update applied to the base configuration. -/
theorem config_update_failure_witness :
    apply_init_options failUpd baseGS.config (some Json.null) =
      (baseGS.config, [warnNotif "bad"]) :=
  config_update_failure_warns_and_keeps_config failUpd baseGS.config
    Json.null "bad" rfl

/-- C7: the workspace_roots sequence is never empty, and in both fallback
cases, no folders supplied, or every supplied folder failing conversion, it
is exactly the one-element sequence holding root_path. -/
theorem workspace_roots_nonempty_default (toFilePath : String → Option FsPath)
    (patch : FsPath → FsPath) (tryAbs : FsPath → Option AbsPath)
    (root_path : AbsPath) (folders : Option (List WorkspaceFolder)) :
    workspace_roots_of toFilePath patch tryAbs root_path folders ≠ [] ∧
    (folders = none →
      workspace_roots_of toFilePath patch tryAbs root_path folders =
        [root_path]) ∧
    (∀ l, folders = some l → converted_roots toFilePath patch tryAbs l = [] →
      workspace_roots_of toFilePath patch tryAbs root_path folders =
        [root_path]) := by
  refine ⟨?_, ?_, ?_⟩
  · cases folders with
    | none => simp [workspace_roots_of]
    | some l =>
      cases hc : converted_roots toFilePath patch tryAbs l with
      | nil => simp [workspace_roots_of, hc]
      | cons x xs => simp [workspace_roots_of, hc]
  · intro h
    subst h
    rfl
  · intro l h hc
    subst h
    simp [workspace_roots_of, hc]

/-- Closed witness for the workspace_roots theorem: no folders supplied, and
one supplied folder whose absolute-path conversion fails. -/
theorem workspace_roots_witness :
    workspace_roots_of okToFilePath id failTryAbs (AbsPath.mk "/w") none =
      [AbsPath.mk "/w"] ∧
    workspace_roots_of okToFilePath id failTryAbs (AbsPath.mk "/w")
      (some [{ uri := "/a" }]) = [AbsPath.mk "/w"] :=
  ⟨(workspace_roots_nonempty_default okToFilePath id failTryAbs
      (AbsPath.mk "/w") none).2.1 rfl,
   (workspace_roots_nonempty_default okToFilePath id failTryAbs
      (AbsPath.mk "/w") (some [{ uri := "/a" }])).2.2 [{ uri := "/a" }] rfl rfl⟩

/-- C10: with the current working directory obtainable, Configuration
construction never fails, and whenever the supplied root_uri is missing or
fails either conversion step, root_path is the current working directory. -/
theorem root_path_fallback_builds_config (toFilePath : String → Option FsPath)
    (patch : FsPath → FsPath) (tryAbs : FsPath → Option AbsPath) (cwd : AbsPath)
    (rootUri : Option String) (caps : Json)
    (folders : Option (List WorkspaceFolder)) :
    (∃ c, build_config toFilePath patch tryAbs (some cwd) rootUri caps folders =
      .ok c) ∧
    (((rootUri.bind toFilePath).map patch).bind tryAbs = none →
      build_config toFilePath patch tryAbs (some cwd) rootUri caps folders =
        .ok (Config.new cwd caps
          (workspace_roots_of toFilePath patch tryAbs cwd folders))) := by
  constructor
  · cases h : ((rootUri.bind toFilePath).map patch).bind tryAbs with
    | none =>
      have hr : root_path_of toFilePath patch tryAbs (some cwd) rootUri = .ok cwd := by
        simp only [root_path_of, h]
      refine ⟨Config.new cwd caps
        (workspace_roots_of toFilePath patch tryAbs cwd folders), ?_⟩
      simp only [build_config, hr]
      rfl
    | some it =>
      have hr : root_path_of toFilePath patch tryAbs (some cwd) rootUri = .ok it := by
        simp only [root_path_of, h]
      refine ⟨Config.new it caps
        (workspace_roots_of toFilePath patch tryAbs it folders), ?_⟩
      simp only [build_config, hr]
      rfl
  · intro h
    have hr : root_path_of toFilePath patch tryAbs (some cwd) rootUri = .ok cwd := by
      simp only [root_path_of, h]
    simp only [build_config, hr]
    rfl

/-- Closed witness for the root_path fallback theorem: a root_uri whose
absolute-path conversion fails, with the working directory available. -/
theorem root_path_fallback_witness :
    build_config okToFilePath id failTryAbs (some (AbsPath.mk "/w"))
      (some "/r") Json.null none =
      .ok (Config.new (AbsPath.mk "/w") Json.null
        (workspace_roots_of okToFilePath id failTryAbs (AbsPath.mk "/w") none)) :=
  (root_path_fallback_builds_config okToFilePath id failTryAbs (AbsPath.mk "/w")
    (some "/r") Json.null none).2 rfl

/-- A binding claims a pending request on method match; with a successful
decode and a successful handler it emits one success response. -/
theorem on_sync_mut_req_claim_ok {α β : Type} {m : String} {dec : Json → Option α}
    {enc : β → Json} {h : GlobalState → α → GlobalState × Except HFail β}
    {r : Request} {gs gs1 : GlobalState} {a : α} {b : β}
    (hm : r.method = m) (hd : dec r.params = some a) (hh : h gs a = (gs1, .ok b)) :
    on_sync_mut_req m dec enc h { req := some r, global_state := gs } =
      { req := none, global_state := gs1.respond (Response.newOk r.id (enc b)) } := by
  simp [on_sync_mut_req, hm, hd, hh]

/-- A claimed request whose handler fails yields one error response whose
code reflects the failure kind. -/
theorem on_sync_mut_req_claim_err {α β : Type} {m : String} {dec : Json → Option α}
    {enc : β → Json} {h : GlobalState → α → GlobalState × Except HFail β}
    {r : Request} {gs gs1 : GlobalState} {a : α} {e : HFail}
    (hm : r.method = m) (hd : dec r.params = some a)
    (hh : h gs a = (gs1, .error e)) :
    on_sync_mut_req m dec enc h { req := some r, global_state := gs } =
      { req := none,
        global_state := gs1.respond (Response.newErr r.id e.code e.msg) } := by
  simp [on_sync_mut_req, hm, hd, hh]

/-- A claimed request whose payload fails to decode yields one InvalidParams
response and runs no handler. -/
theorem on_sync_mut_req_decode_fail {α β : Type} {m : String}
    {dec : Json → Option α} {enc : β → Json}
    {h : GlobalState → α → GlobalState × Except HFail β}
    {r : Request} {gs : GlobalState}
    (hm : r.method = m) (hd : dec r.params = none) :
    on_sync_mut_req m dec enc h { req := some r, global_state := gs } =
      { req := none,
        global_state := gs.respond (Response.newErr r.id invalidParamsCode
          "failed to deserialize request parameters") } := by
  simp [on_sync_mut_req, hm, hd]

/-- A binding whose method does not match leaves the dispatcher unchanged. -/
theorem on_sync_mut_req_nomatch {α β : Type} {m : String} {dec : Json → Option α}
    {enc : β → Json} {h : GlobalState → α → GlobalState × Except HFail β}
    {r : Request} {gs : GlobalState} (hm : ¬ r.method = m) :
    on_sync_mut_req m dec enc h { req := some r, global_state := gs } =
      { req := some r, global_state := gs } := by
  simp [on_sync_mut_req, hm]

/-- A binding after the request has been claimed is a no-op. -/
theorem on_sync_mut_req_none {α β : Type} (m : String) (dec : Json → Option α)
    (enc : β → Json) (h : GlobalState → α → GlobalState × Except HFail β)
    (gs : GlobalState) :
    on_sync_mut_req m dec enc h { req := none, global_state := gs } =
      { req := none, global_state := gs } :=
  rfl

/-- The shutdown guard is a no-op once the request has been claimed. -/
theorem shutdown_guard_none (gs : GlobalState) :
    shutdown_guard { req := none, global_state := gs } =
      { req := none, global_state := gs } :=
  rfl

/-- The shutdown guard is a no-op while shutdown has not been requested. -/
theorem shutdown_guard_false {r : Request} {gs : GlobalState}
    (h : gs.shutdown_requested = false) :
    shutdown_guard { req := some r, global_state := gs } =
      { req := some r, global_state := gs } := by
  simp [shutdown_guard, h]

/-- With shutdown requested and the request still pending, the guard answers
InvalidRequest but leaves the request pending. -/
theorem shutdown_guard_true {r : Request} {gs : GlobalState}
    (h : gs.shutdown_requested = true) :
    shutdown_guard { req := some r, global_state := gs } =
      { req := some r,
        global_state := gs.respond (Response.newErr r.id invalidRequestCode
          "Shutdown already requested") } := by
  simp [shutdown_guard, h]

/-- Filtering out an id drops a matching head entry. -/
theorem filter_ne_cons_self (l : List (RequestId × String)) (id : RequestId)
    (m : String) :
    ((id, m) :: l).filter (fun e => decide (e.1 ≠ id)) =
      l.filter (fun e => decide (e.1 ≠ id)) := by
  simp [List.filter_cons]

/-- Filtering out an id held by no entry is the identity. -/
theorem filter_ne_of_fresh (l : List (RequestId × String)) (id : RequestId)
    (h : ∀ e ∈ l, e.1 ≠ id) :
    l.filter (fun e => decide (e.1 ≠ id)) = l := by
  rw [List.filter_eq_self]
  intro a ha
  simpa using h a ha

/-- An error response built with matching id and code satisfies isErrFor. -/
theorem isErrFor_newErr_self (id : RequestId) (c : Int) (m : String) :
    isErrFor id c (Response.newErr id c m) = true := by
  simp [isErrFor, Response.newErr]

/-- An InvalidRequest error response is not an InvalidParams one. -/
theorem isErrFor_invalidParams_of_invalidRequest (id id1 : RequestId) (m : String) :
    isErrFor id invalidParamsCode (Response.newErr id1 invalidRequestCode m) =
      false := by
  simp [isErrFor, Response.newErr, invalidParamsCode, invalidRequestCode]

/-- The concrete completion handler satisfies the handler contract. -/
theorem testHandlers_req_good : GoodReqHandler testHandlers.completion := by
  intro gs a
  exact ⟨rfl, fun h => h⟩

/-- The concrete handler set satisfies the handler contract. -/
theorem testHandlers_good : GoodHandlers testHandlers := by
  refine ⟨testHandlers_req_good, ?_, ?_, ?_⟩ <;> intro gs a <;> exact ⟨rfl, fun h => h⟩

/-- C1: evaluation at the failing input.  With shutdown already requested, a
completion request is answered with the InvalidRequest error but is then
still claimed by the completion binding: the handler runs (its echoed output
is the second response) and two responses with the request's id are emitted.
The guard in on_request responds without consuming the request and without
returning, so the claim's guarantee — exactly one InvalidRequest response and
no handler invocation — is violated by the code. -/
theorem shutdown_guard_bug_eval :
    (on_new_request testHandlers shutGS cexCompletionReq).sent =
      [Message.response (Response.newErr (RequestId.num 7) invalidRequestCode
          "Shutdown already requested"),
       Message.response (Response.newOk (RequestId.num 7) (Json.str "p"))] :=
  rfl

/-- C2 counterexample: at the same failing input, processing the claimed
completion request emits two responses, not one, refuting the claim as
stated (its conclusion would force the new outbound responses to be a
one-element list). -/
theorem dispatch_single_response_cex :
    ¬ ∃ resp : Response,
      responsesOf (on_new_request testHandlers shutGS cexCompletionReq).sent =
        responsesOf shutGS.sent ++ [resp] := by
  rintro ⟨resp, h⟩
  have h2 : responsesOf (on_new_request testHandlers shutGS cexCompletionReq).sent =
      [Response.newErr (RequestId.num 7) invalidRequestCode
         "Shutdown already requested",
       Response.newOk (RequestId.num 7) (Json.str "p")] := rfl
  have h0 : responsesOf shutGS.sent = [] := rfl
  rw [h2, h0] at h
  simp at h

/-- C2 (amended): provided shutdown has not been requested — or the request
is the shutdown request itself — every Request claimed by a registered
binding whose payload decodes successfully is answered by exactly one new
Response, and that Response carries the original request's id. -/
theorem dispatch_single_response (H : Handlers) (gs : GlobalState) (req : Request)
    (hgood : GoodReqHandler H.completion)
    (hflag : gs.shutdown_requested = false ∨ req.method = "shutdown")
    (hclaim : (req.method = "shutdown" ∧ decodeUnit req.params = some ()) ∨
      (req.method = "textDocument/completion" ∧
        ∃ a, H.completionDecode req.params = some a)) :
    ∃ resp : Response, resp.id = req.id ∧
      responsesOf (on_new_request H gs req).sent =
        responsesOf gs.sent ++ [resp] := by
  rcases hclaim with ⟨hm, hd⟩ | ⟨hm, a, hd⟩
  · refine ⟨Response.newOk req.id Json.null, rfl, ?_⟩
    unfold on_new_request on_request
    rw [on_sync_mut_req_claim_ok hm hd rfl, shutdown_guard_none,
      on_sync_mut_req_none]
    simp only [request_finish]
    rw [responsesOf_respond]
    rfl
  · have hne : ¬ req.method = "shutdown" := by
      rw [hm]
      decide
    have hf : gs.shutdown_requested = false := by
      rcases hflag with h | h
      · exact h
      · rw [hm] at h
        exact absurd h (by decide)
    have hfr : (gs.register_request req).shutdown_requested = false := hf
    cases hh : H.completion (gs.register_request req) a with
    | mk gs1 out =>
      have hre : responsesOf gs1.sent = responsesOf gs.sent := by
        have h2 := (hgood (gs.register_request req) a).1
        rw [hh] at h2
        exact h2
      cases out with
      | ok b =>
        refine ⟨Response.newOk req.id b, rfl, ?_⟩
        unfold on_new_request on_request
        rw [on_sync_mut_req_nomatch hne, shutdown_guard_false hfr,
          on_sync_mut_req_claim_ok hm hd hh]
        simp only [request_finish]
        rw [responsesOf_respond, hre]
      | error e =>
        refine ⟨Response.newErr req.id e.code e.msg, rfl, ?_⟩
        unfold on_new_request on_request
        rw [on_sync_mut_req_nomatch hne, shutdown_guard_false hfr,
          on_sync_mut_req_claim_err hm hd hh]
        simp only [request_finish]
        rw [responsesOf_respond, hre]

/-- Closed witness for the amended single-response theorem: a decodable
completion request processed while shutdown has not been requested. -/
theorem dispatch_single_response_witness :
    ∃ resp : Response, resp.id = cexCompletionReq.id ∧
      responsesOf (on_new_request testHandlers baseGS cexCompletionReq).sent =
        responsesOf baseGS.sent ++ [resp] :=
  dispatch_single_response testHandlers baseGS cexCompletionReq
    testHandlers_req_good (Or.inl rfl) (Or.inr ⟨rfl, ⟨Json.str "p", rfl⟩⟩)

/-- C5: a Request claimed by a binding whose payload fails to decode yields
exactly one new InvalidParams error response carrying the request's id, and
leaves configuration, outstanding-request registry and the lifecycle flag
unchanged (the request's id being fresh, per the protocol's id-uniqueness). -/
theorem decode_failure_invalid_params (H : Handlers) (gs : GlobalState)
    (req : Request) (hfresh : ∀ e ∈ gs.outstanding, e.1 ≠ req.id)
    (hclaim : (req.method = "shutdown" ∧ decodeUnit req.params = none) ∨
      (req.method = "textDocument/completion" ∧
        H.completionDecode req.params = none)) :
    (on_new_request H gs req).config = gs.config ∧
    (on_new_request H gs req).shutdown_requested = gs.shutdown_requested ∧
    (on_new_request H gs req).outstanding = gs.outstanding ∧
    (responsesOf (on_new_request H gs req).sent).countP
        (isErrFor req.id invalidParamsCode) =
      (responsesOf gs.sent).countP (isErrFor req.id invalidParamsCode) + 1 := by
  have hfil : gs.outstanding.filter (fun e => decide (e.1 ≠ req.id)) =
      gs.outstanding := filter_ne_of_fresh gs.outstanding req.id hfresh
  rcases hclaim with ⟨hm, hd⟩ | ⟨hm, hd⟩
  · unfold on_new_request on_request
    rw [on_sync_mut_req_decode_fail hm hd, shutdown_guard_none,
      on_sync_mut_req_none]
    simp only [request_finish]
    refine ⟨rfl, rfl, ?_, ?_⟩
    · simp only [GlobalState.respond, GlobalState.register_request,
        Response.newErr]
      rw [filter_ne_cons_self, hfil, hfil]
    · rw [responsesOf_respond]
      simp [List.countP_append, List.countP_cons, isErrFor_newErr_self]
      rfl
  · have hne : ¬ req.method = "shutdown" := by
      rw [hm]
      decide
    cases hfl : gs.shutdown_requested with
    | false =>
      have hfr : (gs.register_request req).shutdown_requested = false := hfl
      unfold on_new_request on_request
      rw [on_sync_mut_req_nomatch hne, shutdown_guard_false hfr,
        on_sync_mut_req_decode_fail hm hd]
      simp only [request_finish]
      refine ⟨rfl, hfr, ?_, ?_⟩
      · simp only [GlobalState.respond, GlobalState.register_request,
          Response.newErr]
        rw [filter_ne_cons_self, hfil, hfil]
      · rw [responsesOf_respond]
        simp [List.countP_append, List.countP_cons, isErrFor_newErr_self]
        rfl
    | true =>
      have hfr : (gs.register_request req).shutdown_requested = true := hfl
      unfold on_new_request on_request
      rw [on_sync_mut_req_nomatch hne, shutdown_guard_true hfr,
        on_sync_mut_req_decode_fail hm hd]
      simp only [request_finish]
      refine ⟨rfl, hfr, ?_, ?_⟩
      · simp only [GlobalState.respond, GlobalState.register_request,
          Response.newErr]
        rw [filter_ne_cons_self, hfil, hfil, hfil]
      · rw [responsesOf_respond, responsesOf_respond]
        simp [List.countP_append, List.countP_cons, isErrFor_newErr_self,
          isErrFor_invalidParams_of_invalidRequest]
        rfl

/-- Closed witness for the decode-failure theorem: a shutdown request whose
non-null payload fails to decode into the empty parameter type. -/
theorem decode_failure_invalid_params_witness :
    (on_new_request testHandlers baseGS cexBadShutdownReq).config =
      baseGS.config ∧
    (on_new_request testHandlers baseGS cexBadShutdownReq).shutdown_requested =
      baseGS.shutdown_requested ∧
    (on_new_request testHandlers baseGS cexBadShutdownReq).outstanding =
      baseGS.outstanding ∧
    (responsesOf (on_new_request testHandlers baseGS cexBadShutdownReq).sent).countP
        (isErrFor cexBadShutdownReq.id invalidParamsCode) =
      (responsesOf baseGS.sent).countP
        (isErrFor cexBadShutdownReq.id invalidParamsCode) + 1 :=
  decode_failure_invalid_params testHandlers baseGS cexBadShutdownReq
    (fun e he => absurd he (List.not_mem_nil e)) (Or.inl ⟨rfl, rfl⟩)

/-- A notification binding whose method does not match passes the
notification on unchanged. -/
theorem on_sync_mut_notif_nomatch {α : Type} {m : String} {dec : Json → Option α}
    {f : GlobalState → α → GlobalState × Except String Unit} {n : Notif}
    {gs : GlobalState} (hm : ¬ n.method = m) :
    on_sync_mut_notif m dec f { pending := some n, global_state := gs } =
      .ok { pending := some n, global_state := gs } := by
  simp [on_sync_mut_notif, hm]

/-- A claimed notification with a successful decode and handler is consumed,
leaving the handler's state and emitting nothing. -/
theorem on_sync_mut_notif_claim_ok {α : Type} {m : String} {dec : Json → Option α}
    {f : GlobalState → α → GlobalState × Except String Unit} {n : Notif}
    {gs gs1 : GlobalState} {a : α} {u : Unit}
    (hm : n.method = m) (hd : dec n.params = some a) (hh : f gs a = (gs1, .ok u)) :
    on_sync_mut_notif m dec f { pending := some n, global_state := gs } =
      .ok { pending := none, global_state := gs1 } := by
  simp [on_sync_mut_notif, hm, hd, hh]

/-- A claimed notification whose handler fails surfaces that failure to the
caller. -/
theorem on_sync_mut_notif_claim_err {α : Type} {m : String} {dec : Json → Option α}
    {f : GlobalState → α → GlobalState × Except String Unit} {n : Notif}
    {gs gs1 : GlobalState} {a : α} {e : String}
    (hm : n.method = m) (hd : dec n.params = some a)
    (hh : f gs a = (gs1, .error e)) :
    on_sync_mut_notif m dec f { pending := some n, global_state := gs } =
      .error e := by
  simp [on_sync_mut_notif, hm, hd, hh]

/-- A successful notification binding step neither emits responses nor
resets the shutdown latch, given a handler honouring its contract. -/
theorem on_sync_mut_notif_ok_state {α : Type} (m : String) (dec : Json → Option α)
    (f : GlobalState → α → GlobalState × Except String Unit)
    (hh : ∀ gs a, responsesOf ((f gs a).1).sent = responsesOf gs.sent ∧
      (gs.shutdown_requested = true → ((f gs a).1).shutdown_requested = true))
    (d d1 : NotifDispatcher) (h : on_sync_mut_notif m dec f d = .ok d1) :
    responsesOf d1.global_state.sent = responsesOf d.global_state.sent ∧
    (d.global_state.shutdown_requested = true →
      d1.global_state.shutdown_requested = true) := by
  rcases d with ⟨o, gs⟩
  cases o with
  | none =>
    simp only [on_sync_mut_notif] at h
    injection h with h2
    subst h2
    exact ⟨rfl, fun hf => hf⟩
  | some n =>
    by_cases hme : n.method = m
    · cases hdc : dec n.params with
      | none => simp [on_sync_mut_notif, hme, hdc] at h
      | some a =>
        cases hcall : f gs a with
        | mk gs1 out =>
          cases out with
          | ok u =>
            rw [on_sync_mut_notif_claim_ok hme hdc hcall] at h
            injection h with h2
            subst h2
            constructor
            · have h3 := (hh gs a).1
              rw [hcall] at h3
              exact h3
            · intro hf
              have h3 := (hh gs a).2 hf
              rw [hcall] at h3
              exact h3
          | error e =>
            rw [on_sync_mut_notif_claim_err hme hdc hcall] at h
            cases h
    · rw [on_sync_mut_notif_nomatch hme] at h
      injection h with h2
      subst h2
      exact ⟨rfl, fun hf => hf⟩

/-- A successful pass through on_notification neither emits responses nor
resets the shutdown latch, given handlers honouring their contract. -/
theorem on_notification_ok_state (H : Handlers) (hgood : GoodHandlers H)
    (gs : GlobalState) (n : Notif) (gs1 : GlobalState)
    (h : on_notification H gs n = .ok gs1) :
    responsesOf gs1.sent = responsesOf gs.sent ∧
    (gs.shutdown_requested = true → gs1.shutdown_requested = true) := by
  obtain ⟨hcomp, hopen, hclose, hchange⟩ := hgood
  simp only [on_notification, bind, Except.bind, pure, Except.pure] at h
  cases h1 : on_sync_mut_notif "$/cancelRequest" decodeCancel handle_cancel
      { pending := some n, global_state := gs } with
  | error e => simp [h1] at h
  | ok d1 =>
    simp only [h1] at h
    have s1 := on_sync_mut_notif_ok_state "$/cancelRequest" decodeCancel
      handle_cancel (fun gs a => ⟨rfl, fun hf => hf⟩)
      { pending := some n, global_state := gs } d1 h1
    cases h2 : on_sync_mut_notif "textDocument/didOpen" H.didOpenDecode
        H.didOpen d1 with
    | error e => simp [h2] at h
    | ok d2 =>
      simp only [h2] at h
      have s2 := on_sync_mut_notif_ok_state "textDocument/didOpen"
        H.didOpenDecode H.didOpen hopen d1 d2 h2
      cases h3 : on_sync_mut_notif "textDocument/didClose" H.didCloseDecode
          H.didClose d2 with
      | error e => simp [h3] at h
      | ok d3 =>
        simp only [h3] at h
        have s3 := on_sync_mut_notif_ok_state "textDocument/didClose"
          H.didCloseDecode H.didClose hclose d2 d3 h3
        cases h4 : on_sync_mut_notif "textDocument/didChange" H.didChangeDecode
            H.didChange d3 with
        | error e => simp [h4] at h
        | ok d4 =>
          simp only [h4] at h
          have s4 := on_sync_mut_notif_ok_state "textDocument/didChange"
            H.didChangeDecode H.didChange hchange d3 d4 h4
          injection h with h5
          subst h5
          constructor
          · exact s4.1.trans (s3.1.trans (s2.1.trans s1.1))
          · intro hf
            exact s4.2 (s3.2 (s2.2 (s1.2 hf)))

/-- A failing pass through on_notification can only come from one of the
four registered bindings, none of which is the exit method. -/
theorem on_notification_error_method (H : Handlers) (gs : GlobalState)
    (n : Notif) (e : String) (h : on_notification H gs n = .error e) :
    is_exit (Message.notif n) = false := by
  by_cases h1 : n.method = "$/cancelRequest"
  · simp [is_exit, h1]
  by_cases h2 : n.method = "textDocument/didOpen"
  · simp [is_exit, h2]
  by_cases h3 : n.method = "textDocument/didClose"
  · simp [is_exit, h3]
  by_cases h4 : n.method = "textDocument/didChange"
  · simp [is_exit, h4]
  exfalso
  simp [on_notification, bind, Except.bind, pure, Except.pure,
    on_sync_mut_notif_nomatch h1, on_sync_mut_notif_nomatch h2,
    on_sync_mut_notif_nomatch h3, on_sync_mut_notif_nomatch h4] at h

/-- A request binding step keeps the latch set, given a handler that keeps
it set. -/
theorem on_sync_mut_req_flag {α β : Type} (m : String) (dec : Json → Option α)
    (enc : β → Json) (f : GlobalState → α → GlobalState × Except HFail β)
    (hh : ∀ gs a, gs.shutdown_requested = true →
      ((f gs a).1).shutdown_requested = true)
    (d : RequestDispatcher) (hf : d.global_state.shutdown_requested = true) :
    (on_sync_mut_req m dec enc f d).global_state.shutdown_requested = true := by
  rcases d with ⟨o, gs⟩
  cases o with
  | none => exact hf
  | some r =>
    by_cases hme : r.method = m
    · cases hdc : dec r.params with
      | none =>
        rw [on_sync_mut_req_decode_fail hme hdc]
        exact hf
      | some a =>
        cases hcall : f gs a with
        | mk gs1 out =>
          cases out with
          | ok b =>
            rw [on_sync_mut_req_claim_ok hme hdc hcall]
            have h3 := hh gs a hf
            rw [hcall] at h3
            exact h3
          | error e =>
            rw [on_sync_mut_req_claim_err hme hdc hcall]
            have h3 := hh gs a hf
            rw [hcall] at h3
            exact h3
    · rw [on_sync_mut_req_nomatch hme]
      exact hf

/-- The shutdown guard never changes the latch. -/
theorem shutdown_guard_flag (d : RequestDispatcher) :
    (shutdown_guard d).global_state.shutdown_requested =
      d.global_state.shutdown_requested := by
  rcases d with ⟨o, gs⟩
  cases o with
  | none => rfl
  | some r =>
    cases hb : gs.shutdown_requested with
    | false =>
      rw [shutdown_guard_false hb]
      exact hb
    | true =>
      rw [shutdown_guard_true hb]
      exact hb

/-- The request path keeps the latch set, given a completion handler that
keeps it set. -/
theorem on_request_flag (H : Handlers)
    (hc : ∀ gs a, gs.shutdown_requested = true →
      ((H.completion gs a).1).shutdown_requested = true)
    (gs : GlobalState) (req : Request) (hf : gs.shutdown_requested = true) :
    (on_new_request H gs req).shutdown_requested = true := by
  unfold on_new_request on_request
  have h1 := on_sync_mut_req_flag "shutdown" decodeUnit (fun _ => Json.null)
    shutdown_handler (fun s u _ => rfl)
    { req := some req, global_state := gs.register_request req } hf
  have h2 : (shutdown_guard (on_sync_mut_req "shutdown" decodeUnit
      (fun _ => Json.null) shutdown_handler
      { req := some req, global_state := gs.register_request req
      })).global_state.shutdown_requested = true := by
    rw [shutdown_guard_flag]
    exact h1
  exact on_sync_mut_req_flag "textDocument/completion" H.completionDecode
    (fun j => j) H.completion hc _ h2

/-- Handling any single event keeps the latch set, given handlers honouring
their contract. -/
theorem handle_event_flag (H : Handlers) (hgood : GoodHandlers H)
    (gs : GlobalState) (m : Message) (gs1 : GlobalState)
    (h : handle_event H gs m = .ok gs1) (hf : gs.shutdown_requested = true) :
    gs1.shutdown_requested = true := by
  cases m with
  | request r =>
    simp only [handle_event] at h
    injection h with h2
    subst h2
    exact on_request_flag H (fun gs a => (hgood.1 gs a).2) gs r hf
  | notif n => exact (on_notification_ok_state H hgood gs n gs1 h).2 hf
  | response r =>
    simp only [handle_event] at h
    injection h with h2
    subst h2
    exact hf

/-- The concrete failing handler set satisfies the handler contract. -/
theorem failHandlers_good : GoodHandlers failHandlers := by
  refine ⟨?_, ?_, ?_, ?_⟩ <;> intro gs a <;> exact ⟨rfl, fun h => h⟩

/-- C8: the shutdown flag is a one-way latch.  The shutdown handler's only
state effect is setting the flag (returning success), and — with the
external handlers honouring their interface contract — neither handling any
further event nor any complete loop execution ever resets a set flag. -/
theorem shutdown_latch (H : Handlers) (hgood : GoodHandlers H) :
    (∀ s u, shutdown_handler s u =
      ({ s with shutdown_requested := true }, .ok ())) ∧
    (∀ gs m gs1, handle_event H gs m = .ok gs1 →
      gs.shutdown_requested = true → gs1.shutdown_requested = true) ∧
    (∀ gs ms gsF, run H gs ms = .ok gsF →
      gs.shutdown_requested = true → gsF.shutdown_requested = true) := by
  refine ⟨fun s u => rfl,
    fun gs m gs1 h hf => handle_event_flag H hgood gs m gs1 h hf, ?_⟩
  intro gs ms
  induction ms generalizing gs with
  | nil =>
    intro gsF h
    cases h
  | cons m rest ih =>
    intro gsF h hf
    by_cases hex : is_exit m = true
    · simp only [run, hex, if_true] at h
      injection h with h2
      subst h2
      exact hf
    · have hexf : is_exit m = false := by
        cases hxx : is_exit m
        · rfl
        · exact absurd hxx hex
      simp only [run, hexf, Bool.false_eq_true, if_false] at h
      cases hcall : handle_event H gs m with
      | ok gs2 =>
        rw [hcall] at h
        exact ih gs2 gsF h (handle_event_flag H hgood gs m gs2 hcall hf)
      | error e =>
        rw [hcall] at h
        cases h

/-- Closed witness for the latch theorem: handling a completion request in
the post-shutdown state leaves the flag set. -/
theorem shutdown_latch_witness :
    (on_new_request testHandlers shutGS cexCompletionReq).shutdown_requested =
      true :=
  (shutdown_latch testHandlers testHandlers_good).2.1 shutGS
    (Message.request cexCompletionReq)
    (on_new_request testHandlers shutGS cexCompletionReq) rfl rfl

/-- C9: a dispatched Notification never produces a Response whatever its
handler's outcome, and a handler-reported failure is propagated: it makes
on_notification, hence handle_event, hence run, return that error rather
than any protocol response. -/
theorem notification_no_response_and_propagation (H : Handlers)
    (hgood : GoodHandlers H) :
    (∀ gs n gs1, on_notification H gs n = .ok gs1 →
      responsesOf gs1.sent = responsesOf gs.sent) ∧
    (∀ gs n e, on_notification H gs n = .error e →
      handle_event H gs (Message.notif n) = .error e ∧
      ∀ rest, run H gs (Message.notif n :: rest) =
        .error (.handlerFailed e)) ∧
    (∀ gs n gs1 a e,
      ((n.method = "textDocument/didOpen" ∧
          H.didOpenDecode n.params = some a ∧
          H.didOpen gs a = (gs1, .error e)) ∨
        (n.method = "textDocument/didClose" ∧
          H.didCloseDecode n.params = some a ∧
          H.didClose gs a = (gs1, .error e)) ∨
        (n.method = "textDocument/didChange" ∧
          H.didChangeDecode n.params = some a ∧
          H.didChange gs a = (gs1, .error e))) →
      on_notification H gs n = .error e) := by
  refine ⟨fun gs n gs1 h => (on_notification_ok_state H hgood gs n gs1 h).1,
    ?_, ?_⟩
  · intro gs n e h
    have hex := on_notification_error_method H gs n e h
    have hev : handle_event H gs (Message.notif n) = .error e := h
    refine ⟨hev, fun rest => ?_⟩
    simp only [run, hex, Bool.false_eq_true, if_false, hev]
  · intro gs n gs1 a e hcase
    rcases hcase with ⟨hm, hd, hh⟩ | ⟨hm, hd, hh⟩ | ⟨hm, hd, hh⟩
    · have h1 : on_sync_mut_notif "$/cancelRequest" decodeCancel handle_cancel
          { pending := some n, global_state := gs } =
          .ok { pending := some n, global_state := gs } :=
        on_sync_mut_notif_nomatch (by rw [hm]; decide)
      have h2 : on_sync_mut_notif "textDocument/didOpen" H.didOpenDecode
          H.didOpen { pending := some n, global_state := gs } = .error e :=
        on_sync_mut_notif_claim_err hm hd hh
      simp [on_notification, bind, Except.bind, h1, h2]
    · have h1 : on_sync_mut_notif "$/cancelRequest" decodeCancel handle_cancel
          { pending := some n, global_state := gs } =
          .ok { pending := some n, global_state := gs } :=
        on_sync_mut_notif_nomatch (by rw [hm]; decide)
      have h2 : on_sync_mut_notif "textDocument/didOpen" H.didOpenDecode
          H.didOpen { pending := some n, global_state := gs } =
          .ok { pending := some n, global_state := gs } :=
        on_sync_mut_notif_nomatch (by rw [hm]; decide)
      have h3 : on_sync_mut_notif "textDocument/didClose" H.didCloseDecode
          H.didClose { pending := some n, global_state := gs } = .error e :=
        on_sync_mut_notif_claim_err hm hd hh
      simp [on_notification, bind, Except.bind, h1, h2, h3]
    · have h1 : on_sync_mut_notif "$/cancelRequest" decodeCancel handle_cancel
          { pending := some n, global_state := gs } =
          .ok { pending := some n, global_state := gs } :=
        on_sync_mut_notif_nomatch (by rw [hm]; decide)
      have h2 : on_sync_mut_notif "textDocument/didOpen" H.didOpenDecode
          H.didOpen { pending := some n, global_state := gs } =
          .ok { pending := some n, global_state := gs } :=
        on_sync_mut_notif_nomatch (by rw [hm]; decide)
      have h3 : on_sync_mut_notif "textDocument/didClose" H.didCloseDecode
          H.didClose { pending := some n, global_state := gs } =
          .ok { pending := some n, global_state := gs } :=
        on_sync_mut_notif_nomatch (by rw [hm]; decide)
      have h4 : on_sync_mut_notif "textDocument/didChange" H.didChangeDecode
          H.didChange { pending := some n, global_state := gs } = .error e :=
        on_sync_mut_notif_claim_err hm hd hh
      simp [on_notification, bind, Except.bind, h1, h2, h3, h4]

/-- Closed witness for the notification theorem: a didOpen notification
whose handler fails makes on_notification and run return that failure. -/
theorem notification_propagation_witness :
    on_notification failHandlers baseGS
      { method := "textDocument/didOpen", params := Json.null } =
      .error "boom" ∧
    run failHandlers baseGS
      [Message.notif { method := "textDocument/didOpen", params := Json.null }] =
      .error (.handlerFailed "boom") := by
  have h3 := (notification_no_response_and_propagation failHandlers
      failHandlers_good).2.2 baseGS
    { method := "textDocument/didOpen", params := Json.null }
    baseGS Json.null "boom" (Or.inl ⟨rfl, rfl, rfl⟩)
  exact ⟨h3, ((notification_no_response_and_propagation failHandlers
      failHandlers_good).2.1 baseGS
    { method := "textDocument/didOpen", params := Json.null } "boom" h3).2 []⟩
